import Mathlib

/-!
Shallow embedding of the resumable download engine in `src/downloader.rs`
(the `Downloader` impl).  Strings from the Rust side (URLs, header values)
are modelled as `List Char`; filesystem paths as lists of path components;
the destination file as `Option (List Nat)` (`none` = absent, `some bytes`
= present with that content).  HTTP responses carry a status code, the
already-split header values the code reads, and the body as the ordered
list of chunks yielded by `bytes_stream`.  The engine is a pure function
over the local file state and the three responses the server can be asked
for (probe, main transfer, restart transfer); it returns the final file
state, the trace of transfer requests issued, the mode the output file was
opened in, the value returned by `stream_file_contents`, and the
`Result<PathBuf>` outcome.
-/

namespace SnapshotDownloader

abbrev Byte := Nat

abbrev FileContent := List Byte

/-- Content of the destination file: `none` if absent. -/
abbrev Fs := Option FileContent

/-- Model of `str::split(sep)` on a list of characters: Rust's `split`
always yields at least one (possibly empty) segment. -/
def splitOnChar (sep : Char) : List Char → List (List Char)
  | [] => [[]]
  | c :: cs =>
    if c = sep then [] :: splitOnChar sep cs
    else
      match splitOnChar sep cs with
      | [] => [[c]]
      | s :: ss => (c :: s) :: ss

/-- Model of `str::parse::<u64>` on the digit strings the code feeds it. -/
def parseNatDigits (cs : List Char) : Option Nat :=
  if cs ≠ [] ∧ cs.all Char.isDigit then
    some (cs.foldl (fun n c => n * 10 + (c.toNat - 48)) 0)
  else none

/-- An HTTP response as the code observes it: status, the `content-length`
header (already parsed to a number when well-formed), the raw
`content-range` header value, and the body chunk sequence. -/
structure HttpResponse where
  status : Nat
  contentLength : Option Nat
  contentRange : Option (List Char)
  chunks : List FileContent
deriving Repr, DecidableEq

/-- A transfer request: `range = some n` models the header
`Range: bytes=n-`, `none` models no range header. -/
structure Request where
  range : Option Nat
deriving Repr, DecidableEq

/-- The responses the server gives to the three requests the engine can
issue: the metadata probe, the main transfer request, and the restart
request (used only if a restart happens). -/
structure Server where
  probe : HttpResponse
  main : HttpResponse
  restart : HttpResponse
deriving Repr, DecidableEq

/-- `StatusCode::is_success()`: 2xx. -/
def isSuccess (status : Nat) : Bool :=
  decide (200 ≤ status) && decide (status ≤ 299)

/-- `extract_size_from_content_range`: take the part after `/` and parse. -/
def extract_size_from_content_range (r : HttpResponse) : Option Nat :=
  r.contentRange.bind fun v => ((splitOnChar '/' v)[1]?).bind parseNatDigits

/-- `extract_size_from_content_length`. -/
def extract_size_from_content_length (r : HttpResponse) : Option Nat :=
  r.contentLength

/-- `fetch_remote_file_metadata`: returns `(total_size, supports_range)`
from the probe response, or the error the code raises on a non-success
non-206 probe status. -/
def fetch_remote_file_metadata (probe : HttpResponse) :
    Except String (Option Nat × Bool) :=
  let supports_range := probe.status == 206
  if supports_range then
    .ok (extract_size_from_content_range probe, supports_range)
  else if isSuccess probe.status then
    .ok (extract_size_from_content_length probe, supports_range)
  else
    .error "Request failed with status"

/-- `PathBuf::join` at the path-component level; joining the empty file
name adds no component (Rust `Path` equality compares components). -/
def path_join (dir : List (List Char)) (name : List Char) : List (List Char) :=
  if name = [] then dir else dir ++ [name]

/-- `prepare_output_path`: file name = last segment of the URL split on
`/`; output path = output dir joined with it. -/
def prepare_output_path (url : List Char) (output_dir : List (List Char)) :
    Except String (List Char × List (List Char)) :=
  match (splitOnChar '/' url).getLast? with
  | none => .error "Failed to determine file name from URL"
  | some file_name => .ok (file_name, path_join output_dir file_name)

/-- `check_existing_file`: `(exists, size)` of the destination file. -/
def check_existing_file (fs : Fs) : Bool × Nat :=
  match fs with
  | none => (false, 0)
  | some content => (true, content.length)

/-- `is_download_complete`. -/
def is_download_complete (file_exists : Bool) (file_size : Nat)
    (remote_size : Option Nat) : Bool :=
  match remote_size with
  | some r => file_exists && (file_size == r)
  | none => false

/-- Mode the output file is opened in. -/
inductive FileMode where
  | create
  | append
deriving Repr, DecidableEq

/-- `open_output_file`: append mode keeps the existing content (errors if
the file vanished), create mode truncates to empty. -/
def open_output_file (fs : Fs) (file_exists : Bool) (file_size : Nat)
    (supports_range : Bool) : Except String (Fs × FileMode) :=
  if file_exists = true ∧ 0 < file_size ∧ supports_range = true then
    match fs with
    | some content => .ok (some content, .append)
    | none => .error "Failed to open existing file for resuming download"
  else
    .ok (some [], .create)

/-- `build_download_request`: adds `Range: bytes=file_size-` when resuming. -/
def build_download_request (file_exists : Bool) (file_size : Nat)
    (supports_range : Bool) : Request :=
  if file_exists = true ∧ 0 < file_size ∧ supports_range = true then
    { range := some file_size }
  else
    { range := none }

/-- Rust `Option::or`. -/
def orOpt (a b : Option Nat) : Option Nat :=
  match a with
  | some x => some x
  | none => b

/-- `calculate_total_download_size`. -/
def calculate_total_download_size (is_resuming : Bool) (file_size : Nat)
    (content_length known_content_length : Option Nat) : Nat :=
  if is_resuming = true ∧ 0 < file_size then
    match content_length with
    | some cl => file_size + cl
    | none => file_size + known_content_length.getD 0
  else
    (orOpt content_length known_content_length).getD 0

/-- `stream_file_contents`: writes each chunk at end-of-file in order and
adds its length to the running counter; returns the final file content and
the counter (the `downloaded` value the Rust function returns). -/
def stream_file_contents : List FileContent → FileContent → Nat → FileContent × Nat
  | [], content, downloaded => (content, downloaded)
  | chunk :: rest, content, downloaded =>
      stream_file_contents rest (content ++ chunk) (downloaded + chunk.length)

/-- Successful outcome of `process_download_stream`: final file content,
the value returned by the stream writer, the progress-bar total, and the
returned path. -/
structure StreamOk where
  content : FileContent
  downloaded : Nat
  total_size : Nat
  path : List (List Char)
deriving Repr, DecidableEq

/-- `process_download_stream`: fails only when the output path has no file
name; otherwise sets up the progress total, seeds the counter with the
existing size when resuming, and streams the body into the file. -/
def process_download_stream (response : HttpResponse) (fileContent : FileContent)
    (output_path : List (List Char)) (known_content_length : Option Nat)
    (is_resuming : Bool) (existing_file_size : Nat) : Except String StreamOk :=
  match output_path.getLast? with
  | none => .error "Failed to get filename from path"
  | some _file_name =>
    let content_length := extract_size_from_content_length response
    let total_size := calculate_total_download_size is_resuming existing_file_size
        content_length known_content_length
    let downloaded0 :=
      if is_resuming = true ∧ 0 < existing_file_size then existing_file_size else 0
    let r := stream_file_contents response.chunks fileContent downloaded0
    .ok { content := r.1, downloaded := r.2, total_size := total_size,
          path := output_path }

/-- Observable engine state threaded through a run: destination file
content, the transfer requests issued so far (probe excluded), the last
value returned by `stream_file_contents`, and the mode the output file was
opened in. -/
structure St where
  fs : Fs
  reqs : List Request
  written : Option Nat
  opened : Option FileMode
deriving Repr, DecidableEq

/-- Initial state of a run. -/
def St.init (fs : Fs) : St :=
  { fs := fs, reqs := [], written := none, opened := none }

/-- `restart_download`: truncate the file, issue a fresh request with no
range header, fail hard unless the status is 2xx, else stream from the
beginning. -/
def restart_download (st : St) (server : Server)
    (output_path : List (List Char)) (remote_size : Option Nat) :
    St × Except String (List (List Char)) :=
  let st1 : St := { st with fs := some [] }
  let st2 : St := { st1 with reqs := st1.reqs ++ [{ range := none }] }
  if isSuccess server.restart.status = false then
    (st2, .error "Failed to download file after restart")
  else
    match process_download_stream server.restart [] output_path remote_size
        false 0 with
    | .error e => (st2, .error e)
    | .ok r =>
        ({ st2 with fs := some r.content, written := some r.downloaded }, .ok r.path)

/-- `handle_download_response`: the status state machine of the dispatcher. -/
def handle_download_response (st : St) (server : Server) (response : HttpResponse)
    (fileContent : FileContent) (output_path : List (List Char))
    (remote_size : Option Nat) (file_size : Nat) :
    St × Except String (List (List Char)) :=
  if response.status = 206 then
    match process_download_stream response fileContent output_path remote_size
        true file_size with
    | .error e => (st, .error e)
    | .ok r =>
        ({ st with fs := some r.content, written := some r.downloaded }, .ok r.path)
  else if response.status = 416 then
    restart_download st server output_path remote_size
  else if response.status = 200 then
    if 0 < file_size then
      restart_download st server output_path remote_size
    else
      match process_download_stream response fileContent output_path remote_size
          false 0 with
      | .error e => (st, .error e)
      | .ok r =>
          ({ st with fs := some r.content, written := some r.downloaded }, .ok r.path)
  else
    (st, .error "Unexpected response status")

/-- `download`: the whole engine run for one task. -/
def download (fs0 : Fs) (server : Server) (url : List Char)
    (output_dir : List (List Char)) : St × Except String (List (List Char)) :=
  match prepare_output_path url output_dir with
  | .error e => (St.init fs0, .error e)
  | .ok (_file_name, output_path) =>
    let file_exists := (check_existing_file fs0).1
    let file_size := (check_existing_file fs0).2
    match fetch_remote_file_metadata server.probe with
    | .error e => (St.init fs0, .error e)
    | .ok (remote_size, supports_range) =>
      if is_download_complete file_exists file_size remote_size then
        (St.init fs0, .ok output_path)
      else
        match open_output_file fs0 file_exists file_size supports_range with
        | .error e => (St.init fs0, .error e)
        | .ok (fs1, mode) =>
          let req := build_download_request file_exists file_size supports_range
          let st : St :=
            { fs := fs1, reqs := [req], written := none, opened := some mode }
          handle_download_response st server server.main (fs1.getD [])
            output_path remote_size file_size

/-! ### Basic lemmas about the embedded operations -/

theorem splitOnChar_ne_nil (sep : Char) (cs : List Char) :
    splitOnChar sep cs ≠ [] := by
  induction cs with
  | nil => simp [splitOnChar]
  | cons c cs ih =>
    simp only [splitOnChar]
    split
    · simp
    · match h : splitOnChar sep cs with
      | [] => simp
      | s :: ss => simp

theorem splitOnChar_append_sep (sep : Char) (cs : List Char) :
    splitOnChar sep (cs ++ [sep]) = splitOnChar sep cs ++ [[]] := by
  induction cs with
  | nil => simp [splitOnChar]
  | cons c cs ih =>
    simp only [List.cons_append, splitOnChar, List.append_eq]
    split
    · rw [ih, List.cons_append]
    · rw [ih]
      match h : splitOnChar sep cs with
      | [] => exact absurd h (splitOnChar_ne_nil sep cs)
      | s :: ss => simp

theorem stream_file_contents_eq (chunks : List FileContent)
    (content : FileContent) (d : Nat) :
    stream_file_contents chunks content d =
      (content ++ chunks.flatten, d + (chunks.map List.length).sum) := by
  induction chunks generalizing content d with
  | nil => simp [stream_file_contents]
  | cons chunk rest ih =>
    simp [stream_file_contents, ih, List.append_assoc]
    omega

theorem prepare_output_path_ok (url : List Char) (dir : List (List Char)) :
    prepare_output_path url dir =
      .ok ((splitOnChar '/' url).getLast (splitOnChar_ne_nil '/' url),
        path_join dir ((splitOnChar '/' url).getLast (splitOnChar_ne_nil '/' url))) := by
  unfold prepare_output_path
  rw [List.getLast?_eq_getLast_of_ne_nil (splitOnChar_ne_nil '/' url)]

theorem path_join_getLast?_of_dir_ne_nil (dir : List (List Char))
    (name : List Char) (h : dir ≠ []) :
    ∃ x, (path_join dir name).getLast? = some x := by
  unfold path_join
  split
  · exact ⟨dir.getLast h, List.getLast?_eq_getLast_of_ne_nil h⟩
  · exact ⟨name, by simp⟩

theorem process_download_stream_eq (response : HttpResponse)
    (fileContent : FileContent) (output_path : List (List Char))
    (kcl : Option Nat) (is_resuming : Bool) (ez : Nat) (x : List Char)
    (hp : output_path.getLast? = some x) :
    process_download_stream response fileContent output_path kcl is_resuming ez =
      .ok { content := fileContent ++ response.chunks.flatten,
            downloaded :=
              (if is_resuming = true ∧ 0 < ez then ez else 0) +
                (response.chunks.map List.length).sum,
            total_size := calculate_total_download_size is_resuming ez
              response.contentLength kcl,
            path := output_path } := by
  unfold process_download_stream
  rw [hp]
  simp [stream_file_contents_eq, extract_size_from_content_length]

theorem check_existing_file_some (c : FileContent) :
    check_existing_file (some c) = (true, c.length) := rfl

theorem check_existing_file_none :
    check_existing_file none = (false, 0) := rfl

theorem fetch_metadata_206 (probe : HttpResponse) (h : probe.status = 206) :
    fetch_remote_file_metadata probe =
      .ok (extract_size_from_content_range probe, true) := by
  simp [fetch_remote_file_metadata, h]

theorem fetch_metadata_sr (probe : HttpResponse) (rs : Option Nat) (sr : Bool)
    (h : fetch_remote_file_metadata probe = .ok (rs, sr)) :
    sr = (probe.status == 206) := by
  simp only [fetch_remote_file_metadata] at h
  split at h
  · simp_all
  · split at h
    · simp_all
    · simp_all

theorem open_output_file_append (c : FileContent) (h : 0 < c.length) :
    open_output_file (some c) true c.length true = .ok (some c, .append) := by
  simp [open_output_file, h]

theorem open_output_file_create (fs : Fs) (e : Bool) (sz : Nat) (sr : Bool)
    (h : ¬(e = true ∧ 0 < sz ∧ sr = true)) :
    open_output_file fs e sz sr = .ok (some [], .create) := by
  simp only [open_output_file]
  rw [if_neg h]

/-- Characterisation of a run that reaches the transfer request. -/
theorem download_run (fs0 : Fs) (server : Server) (url : List Char)
    (dir : List (List Char)) (fn : List Char) (p : List (List Char))
    (rs : Option Nat) (sr : Bool) (fs1 : Fs) (m : FileMode)
    (hprep : prepare_output_path url dir = .ok (fn, p))
    (hmeta : fetch_remote_file_metadata server.probe = .ok (rs, sr))
    (hnc : is_download_complete (check_existing_file fs0).1
      (check_existing_file fs0).2 rs = false)
    (hopen : open_output_file fs0 (check_existing_file fs0).1
      (check_existing_file fs0).2 sr = .ok (fs1, m)) :
    download fs0 server url dir =
      handle_download_response
        { fs := fs1,
          reqs := [build_download_request (check_existing_file fs0).1
            (check_existing_file fs0).2 sr],
          written := none, opened := some m }
        server server.main (fs1.getD []) p rs (check_existing_file fs0).2 := by
  simp [download, hprep, hmeta, hnc, hopen]

theorem handle_206 (st : St) (server : Server) (resp : HttpResponse)
    (fc : FileContent) (p : List (List Char)) (rs : Option Nat) (sz : Nat)
    (x : List Char) (h206 : resp.status = 206) (hp : p.getLast? = some x) :
    handle_download_response st server resp fc p rs sz =
      ({ st with
          fs := some (fc ++ resp.chunks.flatten),
          written := some ((if 0 < sz then sz else 0) +
            (resp.chunks.map List.length).sum) },
       .ok p) := by
  simp [handle_download_response, h206,
    process_download_stream_eq _ _ _ _ _ _ x hp]

theorem handle_200_fresh (st : St) (server : Server) (resp : HttpResponse)
    (fc : FileContent) (p : List (List Char)) (rs : Option Nat)
    (x : List Char) (h200 : resp.status = 200) (hp : p.getLast? = some x) :
    handle_download_response st server resp fc p rs 0 =
      ({ st with
          fs := some (fc ++ resp.chunks.flatten),
          written := some (resp.chunks.map List.length).sum },
       .ok p) := by
  simp [handle_download_response, h200,
    process_download_stream_eq _ _ _ _ _ _ x hp]

theorem restart_download_success (st : St) (server : Server)
    (p : List (List Char)) (rs : Option Nat) (x : List Char)
    (hs : isSuccess server.restart.status = true) (hp : p.getLast? = some x) :
    restart_download st server p rs =
      ({ st with
          fs := some server.restart.chunks.flatten,
          reqs := st.reqs ++ [{ range := none }],
          written := some (server.restart.chunks.map List.length).sum },
       .ok p) := by
  simp [restart_download, hs, process_download_stream_eq _ _ _ _ _ _ x hp]

theorem restart_download_failure (st : St) (server : Server)
    (p : List (List Char)) (rs : Option Nat)
    (hs : isSuccess server.restart.status = false) :
    restart_download st server p rs =
      ({ st with
          fs := some [],
          reqs := st.reqs ++ [{ range := none }] },
       .error "Failed to download file after restart") := by
  simp [restart_download, hs]

theorem handle_416 (st : St) (server : Server) (resp : HttpResponse)
    (fc : FileContent) (p : List (List Char)) (rs : Option Nat) (sz : Nat)
    (h : resp.status = 416) :
    handle_download_response st server resp fc p rs sz =
      restart_download st server p rs := by
  simp [handle_download_response, h]

theorem handle_200_restart (st : St) (server : Server) (resp : HttpResponse)
    (fc : FileContent) (p : List (List Char)) (rs : Option Nat) (sz : Nat)
    (h : resp.status = 200) (hsz : 0 < sz) :
    handle_download_response st server resp fc p rs sz =
      restart_download st server p rs := by
  simp [handle_download_response, h, hsz]

theorem handle_other (st : St) (server : Server) (resp : HttpResponse)
    (fc : FileContent) (p : List (List Char)) (rs : Option Nat) (sz : Nat)
    (h200 : resp.status ≠ 200) (h206 : resp.status ≠ 206)
    (h416 : resp.status ≠ 416) :
    handle_download_response st server resp fc p rs sz =
      (st, .error "Unexpected response status") := by
  simp [handle_download_response, h200, h206, h416]

theorem handle_st_frame (st : St) (server : Server) (resp : HttpResponse)
    (fc : FileContent) (p : List (List Char)) (rs : Option Nat) (sz : Nat) :
    ∃ t, (handle_download_response st server resp fc p rs sz).1.reqs = st.reqs ++ t ∧
      (handle_download_response st server resp fc p rs sz).1.opened = st.opened := by
  unfold handle_download_response restart_download
  split
  · split <;> exact ⟨[], by simp⟩
  · split
    · split
      · exact ⟨[{ range := none }], by simp⟩
      · split <;> exact ⟨[{ range := none }], by simp⟩
    · split
      · split
        · split
          · exact ⟨[{ range := none }], by simp⟩
          · split <;> exact ⟨[{ range := none }], by simp⟩
        · split <;> exact ⟨[], by simp⟩
      · exact ⟨[], by simp⟩

/-! ### Claims -/

/-- C1: for every resume transfer (local partial file of size `N > 0`,
range-supporting probe, server answering the ranged request with 206), the
resulting destination file has size exactly `N + L` where `L` is the total
body length, its first `N` bytes are unchanged, and the value returned by
the stream writer equals `N` plus the sum of the lengths of the body
chunks. -/
theorem c1_resume_correctness (content : FileContent) (server : Server)
    (url : List Char) (dir : List (List Char))
    (hN : 0 < content.length)
    (hprobe : server.probe.status = 206)
    (hmain : server.main.status = 206)
    (hnc : is_download_complete true content.length
      (extract_size_from_content_range server.probe) = false)
    (hdir : dir ≠ []) :
    (download (some content) server url dir).1.fs =
        some (content ++ server.main.chunks.flatten) ∧
    ((download (some content) server url dir).1.fs.getD []).length =
        content.length + server.main.chunks.flatten.length ∧
    ((download (some content) server url dir).1.fs.getD []).take content.length =
        content ∧
    (download (some content) server url dir).1.written =
        some (content.length + (server.main.chunks.map List.length).sum) ∧
    (download (some content) server url dir).2.isOk = true := by
  obtain ⟨x, hx⟩ := path_join_getLast?_of_dir_ne_nil dir
    ((splitOnChar '/' url).getLast (splitOnChar_ne_nil '/' url)) hdir
  have hrun := download_run (some content) server url dir _ _ _ _ _ _
    (prepare_output_path_ok url dir)
    (fetch_metadata_206 server.probe hprobe)
    hnc
    (open_output_file_append content hN)
  rw [hrun, handle_206 _ _ _ _ _ _ _ x hmain hx]
  simp [hN, check_existing_file, Except.isOk, Except.toBool]

def c1probe : HttpResponse :=
  { status := 206, contentLength := none, contentRange := none, chunks := [[0]] }

def c1main : HttpResponse :=
  { status := 206, contentLength := some 3, contentRange := none,
    chunks := [[1, 2], [3]] }

def c1srv : Server :=
  { probe := c1probe, main := c1main,
    restart := { status := 0, contentLength := none, contentRange := none,
                 chunks := [] } }

theorem c1_resume_correctness_witness :
    (download (some [7]) c1srv ['t'] [['o']]).1.fs =
        some ([7] ++ c1main.chunks.flatten) ∧
    ((download (some [7]) c1srv ['t'] [['o']]).1.fs.getD []).length =
        ([7] : FileContent).length + c1main.chunks.flatten.length ∧
    ((download (some [7]) c1srv ['t'] [['o']]).1.fs.getD []).take
        ([7] : FileContent).length = [7] ∧
    (download (some [7]) c1srv ['t'] [['o']]).1.written =
        some (([7] : FileContent).length + (c1main.chunks.map List.length).sum) ∧
    (download (some [7]) c1srv ['t'] [['o']]).2.isOk = true :=
  c1_resume_correctness [7] c1srv ['t'] [['o']]
    (by decide) (by decide) (by decide) (by decide) (by decide)

/-- C4: when the probe reports a known remote total size equal to the
existing local file's size, the engine issues no transfer request, writes
no bytes, leaves the file untouched and returns the destination path. -/
theorem c4_idempotent_completion (content : FileContent) (server : Server)
    (url : List Char) (dir : List (List Char)) (T : Nat) (sr : Bool)
    (hmeta : fetch_remote_file_metadata server.probe = .ok (some T, sr))
    (hT : content.length = T) :
    (download (some content) server url dir).1.reqs = [] ∧
    (download (some content) server url dir).1.written = none ∧
    (download (some content) server url dir).1.fs = some content ∧
    ∃ fn p, prepare_output_path url dir = .ok (fn, p) ∧
      (download (some content) server url dir).2 = .ok p := by
  have hcomp : is_download_complete (check_existing_file (some content)).1
      (check_existing_file (some content)).2 (some T) = true := by
    simp [check_existing_file, is_download_complete, hT]
  have hd : download (some content) server url dir =
      (St.init (some content),
        .ok (path_join dir
          ((splitOnChar '/' url).getLast (splitOnChar_ne_nil '/' url)))) := by
    simp [download, prepare_output_path_ok url dir, hmeta, hcomp]
  rw [hd]
  exact ⟨rfl, rfl, rfl, _, _, prepare_output_path_ok url dir, rfl⟩

def c4srv : Server :=
  { probe := { status := 206, contentLength := none,
               contentRange := some ['b', 'y', 't', 'e', 's', ' ', '0', '-',
                 '0', '/', '2'],
               chunks := [[9]] },
    main := { status := 0, contentLength := none, contentRange := none,
              chunks := [] },
    restart := { status := 0, contentLength := none, contentRange := none,
                 chunks := [] } }

theorem c4_idempotent_completion_witness :
    (download (some [1, 2]) c4srv ['u'] [['d']]).1.reqs = [] ∧
    (download (some [1, 2]) c4srv ['u'] [['d']]).1.written = none ∧
    (download (some [1, 2]) c4srv ['u'] [['d']]).1.fs = some [1, 2] ∧
    ∃ fn p, prepare_output_path ['u'] [['d']] = .ok (fn, p) ∧
      (download (some [1, 2]) c4srv ['u'] [['d']]).2 = .ok p :=
  c4_idempotent_completion [1, 2] c4srv ['u'] [['d']] 2 true rfl (by decide)

/-- Total expected progress size as the spec states it: `local_size +
content_length` when resuming, else `content_length`, or `0` when the
server never declared a length; here `content_length` is the length the
server declared, i.e. the response's `Content-Length` falling back to the
probe-reported total. -/
def spec_total_download_size (is_resuming : Bool) (local_size : Nat)
    (content_length known_content_length : Option Nat) : Nat :=
  if is_resuming = true then
    local_size + (orOpt content_length known_content_length).getD 0
  else
    (orOpt content_length known_content_length).getD 0

/-- C7: the progress-display total computed by the code coincides with the
spec's description for every combination of resume flag, response
`Content-Length` and probe-reported size. -/
theorem c7_total_size (is_resuming : Bool) (file_size : Nat)
    (content_length known_content_length : Option Nat) :
    calculate_total_download_size is_resuming file_size content_length
        known_content_length =
      spec_total_download_size is_resuming file_size content_length
        known_content_length := by
  unfold calculate_total_download_size spec_total_download_size orOpt
  rcases Nat.eq_zero_or_pos file_size with h | h <;>
    cases is_resuming <;> cases content_length <;> cases known_content_length <;>
      simp [h]

/-- C10: `prepare_output_path` never takes its error branch (splitting a
string on `/` always yields at least one segment), and for a URL ending in
`/` the derived file name is empty, so the destination path equals the
output directory. -/
theorem c10_prepare_output_path_total (url : List Char) (dir : List (List Char)) :
    (∃ fn, prepare_output_path url dir = .ok (fn, path_join dir fn)) ∧
    (∀ cs, url = cs ++ ['/'] → prepare_output_path url dir = .ok ([], dir)) := by
  refine ⟨⟨_, prepare_output_path_ok url dir⟩, ?_⟩
  intro cs hcs
  subst hcs
  unfold prepare_output_path
  rw [splitOnChar_append_sep]
  have hlast : (splitOnChar '/' cs ++ [([] : List Char)]).getLast? = some [] := by
    simp
  rw [hlast]
  simp [path_join]

theorem c10_prepare_output_path_total_witness :
    prepare_output_path ['a', '/'] [['d']] = .ok ([], [['d']]) :=
  (c10_prepare_output_path_total ['a', '/'] [['d']]).2 ['a'] (by decide)

theorem open_output_file_total (fs0 : Fs) (sr : Bool) :
    ∃ fs1 m, open_output_file fs0 (check_existing_file fs0).1
      (check_existing_file fs0).2 sr = .ok (fs1, m) := by
  by_cases h : (check_existing_file fs0).1 = true ∧
      0 < (check_existing_file fs0).2 ∧ sr = true
  · cases fs0 with
    | none => simp [check_existing_file] at h
    | some c =>
      exact ⟨some c, .append, by
        simp only [open_output_file, if_pos h]⟩
  · exact ⟨some [], .create, open_output_file_create _ _ _ _ h⟩

/-- C8: a 206 answer to the resume request is appended at the end of the
local file with no validation of the `Content-Range` header: the result is
the unconditional append for every header value `cr` whatsoever (in
particular one whose start offset differs from the local size), and the
conclusion does not depend on `cr`. -/
theorem c8_no_content_range_validation (content : FileContent)
    (probe restartResp : HttpResponse) (cl : Option Nat)
    (cr : Option (List Char)) (chunks : List FileContent)
    (url : List Char) (dir : List (List Char))
    (hN : 0 < content.length)
    (hprobe : probe.status = 206)
    (hnc : is_download_complete true content.length
      (extract_size_from_content_range probe) = false)
    (hdir : dir ≠ []) :
    (download (some content)
        ⟨probe, ⟨206, cl, cr, chunks⟩, restartResp⟩ url dir).1.fs =
      some (content ++ chunks.flatten) ∧
    (download (some content)
        ⟨probe, ⟨206, cl, cr, chunks⟩, restartResp⟩ url dir).1.written =
      some (content.length + (chunks.map List.length).sum) ∧
    (download (some content)
        ⟨probe, ⟨206, cl, cr, chunks⟩, restartResp⟩ url dir).2.isOk = true := by
  obtain ⟨x, hx⟩ := path_join_getLast?_of_dir_ne_nil dir
    ((splitOnChar '/' url).getLast (splitOnChar_ne_nil '/' url)) hdir
  have hrun := download_run (some content)
    ⟨probe, ⟨206, cl, cr, chunks⟩, restartResp⟩ url dir _ _ _ _ _ _
    (prepare_output_path_ok url dir)
    (fetch_metadata_206 probe hprobe)
    hnc
    (open_output_file_append content hN)
  rw [hrun, handle_206 _ _ _ _ _ _ _ x rfl hx]
  simp [hN, check_existing_file, Except.isOk, Except.toBool]

def c8probe : HttpResponse :=
  { status := 206, contentLength := none, contentRange := none,
    chunks := [[0]] }

def c8restart : HttpResponse :=
  { status := 0, contentLength := none, contentRange := none, chunks := [] }

theorem c8_no_content_range_validation_witness :
    (download (some [7])
        ⟨c8probe, ⟨206, some 2, some ['b', 'y', 't', 'e', 's', ' ', '9',
          '9', '9', '-', '1', '0', '0', '0', '/', '2', '0', '0', '0'],
          [[1, 2]]⟩, c8restart⟩ ['u'] [['d']]).1.fs =
      some ([7] ++ ([[1, 2]] : List FileContent).flatten) ∧
    (download (some [7])
        ⟨c8probe, ⟨206, some 2, some ['b', 'y', 't', 'e', 's', ' ', '9',
          '9', '9', '-', '1', '0', '0', '0', '/', '2', '0', '0', '0'],
          [[1, 2]]⟩, c8restart⟩ ['u'] [['d']]).1.written =
      some (([7] : FileContent).length +
        (([[1, 2]] : List FileContent).map List.length).sum) ∧
    (download (some [7])
        ⟨c8probe, ⟨206, some 2, some ['b', 'y', 't', 'e', 's', ' ', '9',
          '9', '9', '-', '1', '0', '0', '0', '/', '2', '0', '0', '0'],
          [[1, 2]]⟩, c8restart⟩ ['u'] [['d']]).2.isOk = true :=
  c8_no_content_range_validation [7] c8probe c8restart (some 2)
    (some ['b', 'y', 't', 'e', 's', ' ', '9', '9', '9', '-', '1', '0', '0',
      '0', '/', '2', '0', '0', '0'])
    [[1, 2]] ['u'] [['d']]
    (by decide) (by decide) (by decide) (by decide)

/-- C9: after a restart the new response is accepted exactly when its
status is any 2xx success code; an accepted response (for example 206 or
204) is processed as a fresh download from the beginning. -/
theorem c9_restart_accepts_2xx (fs0 : Fs) (server : Server) (url : List Char)
    (dir : List (List Char)) (rs : Option Nat) (sr : Bool)
    (hmeta : fetch_remote_file_metadata server.probe = .ok (rs, sr))
    (hnc : is_download_complete (check_existing_file fs0).1
      (check_existing_file fs0).2 rs = false)
    (hmain : server.main.status = 416)
    (hdir : dir ≠ []) :
    (isSuccess server.restart.status = true →
      (download fs0 server url dir).2.isOk = true ∧
      (download fs0 server url dir).1.fs = some server.restart.chunks.flatten ∧
      (download fs0 server url dir).1.written =
        some (server.restart.chunks.map List.length).sum) ∧
    (isSuccess server.restart.status = false →
      (download fs0 server url dir).2.isOk = false ∧
      (download fs0 server url dir).1.written = none) := by
  obtain ⟨x, hx⟩ := path_join_getLast?_of_dir_ne_nil dir
    ((splitOnChar '/' url).getLast (splitOnChar_ne_nil '/' url)) hdir
  obtain ⟨fs1, m, hopen⟩ := open_output_file_total fs0 sr
  have hrun := download_run fs0 server url dir _ _ _ _ _ _
    (prepare_output_path_ok url dir) hmeta hnc hopen
  rw [hrun, handle_416 _ _ _ _ _ _ _ hmain]
  constructor
  · intro hs
    rw [restart_download_success _ _ _ _ x hs hx]
    simp [Except.isOk, Except.toBool]
  · intro hs
    rw [restart_download_failure _ _ _ _ hs]
    simp [Except.isOk, Except.toBool]

def c9srv : Server :=
  { probe := { status := 200, contentLength := none, contentRange := none,
               chunks := [[0]] },
    main := { status := 416, contentLength := none, contentRange := none,
              chunks := [] },
    restart := { status := 206, contentLength := some 3,
                 contentRange := none, chunks := [[4], [5, 6]] } }

theorem c9_restart_accepts_2xx_witness :
    (download (some [1]) c9srv ['u'] [['d']]).2.isOk = true ∧
    (download (some [1]) c9srv ['u'] [['d']]).1.fs =
      some c9srv.restart.chunks.flatten ∧
    (download (some [1]) c9srv ['u'] [['d']]).1.written =
      some (c9srv.restart.chunks.map List.length).sum :=
  (c9_restart_accepts_2xx (some [1]) c9srv ['u'] [['d']] none false
    rfl (by decide) rfl (by decide)).1 (by decide)

def c2srv : Server :=
  { probe := { status := 200, contentLength := none, contentRange := none,
               chunks := [[0]] },
    main := { status := 200, contentLength := some 1, contentRange := none,
              chunks := [[9]] },
    restart := { status := 200, contentLength := some 1,
                 contentRange := none, chunks := [[9]] } }

/-- C2 counterexample: with a 1-byte local file and a range-less probe
(status 200), the transfer request carries no range header and the server
answers 200, yet the code still takes the restart path and issues a second
request, contradicting the claim that no restart is triggered in this case
for every local file state. -/
theorem c2_counterexample :
    c2srv.main.status = 200 ∧
    (download (some [5]) c2srv ['u'] [['d']]).1.reqs =
      [{ range := none }, { range := none }] := by
  decide

/-- C2 amended: when the transfer request carried no range header, the
server responds 200 OK and the local file size was 0, the downloader
proceeds directly to the stream writer in create mode as a normal fresh
download, issuing no second request.  (When the local size is positive the
code keys the restart on that size, not on whether a range header was
sent, as the counterexample shows.) -/
theorem c2_fresh_200_no_restart (fs0 : Fs) (server : Server) (url : List Char)
    (dir : List (List Char)) (rs : Option Nat) (sr : Bool)
    (hmeta : fetch_remote_file_metadata server.probe = .ok (rs, sr))
    (hsz : (check_existing_file fs0).2 = 0)
    (hnc : is_download_complete (check_existing_file fs0).1
      (check_existing_file fs0).2 rs = false)
    (hmain : server.main.status = 200)
    (hdir : dir ≠ []) :
    (download fs0 server url dir).1.reqs = [{ range := none }] ∧
    (download fs0 server url dir).1.opened = some FileMode.create ∧
    (download fs0 server url dir).1.fs = some server.main.chunks.flatten ∧
    (download fs0 server url dir).1.written =
      some (server.main.chunks.map List.length).sum ∧
    (download fs0 server url dir).2.isOk = true := by
  obtain ⟨x, hx⟩ := path_join_getLast?_of_dir_ne_nil dir
    ((splitOnChar '/' url).getLast (splitOnChar_ne_nil '/' url)) hdir
  have hopen : open_output_file fs0 (check_existing_file fs0).1
      (check_existing_file fs0).2 sr = .ok (some [], .create) :=
    open_output_file_create _ _ _ _ (by simp [hsz])
  have hrun := download_run fs0 server url dir _ _ _ _ _ _
    (prepare_output_path_ok url dir) hmeta hnc hopen
  have hbuild : build_download_request (check_existing_file fs0).1 0 sr =
      { range := none } := by
    simp [build_download_request]
  rw [hrun, hsz, handle_200_fresh _ _ _ _ _ _ x hmain hx]
  simp [hbuild, Except.isOk, Except.toBool]

theorem c2_fresh_200_no_restart_witness :
    (download none c2srv ['u'] [['d']]).1.reqs = [{ range := none }] ∧
    (download none c2srv ['u'] [['d']]).1.opened = some FileMode.create ∧
    (download none c2srv ['u'] [['d']]).1.fs =
      some c2srv.main.chunks.flatten ∧
    (download none c2srv ['u'] [['d']]).1.written =
      some (c2srv.main.chunks.map List.length).sum ∧
    (download none c2srv ['u'] [['d']]).2.isOk = true :=
  c2_fresh_200_no_restart none c2srv ['u'] [['d']] none false
    rfl (by decide) (by decide) (by decide) (by decide)

def c3srv : Server :=
  { probe := { status := 200, contentLength := none, contentRange := none,
               chunks := [[0]] },
    main := { status := 500, contentLength := none, contentRange := none,
              chunks := [] },
    restart := { status := 0, contentLength := none, contentRange := none,
                 chunks := [] } }

/-- C3 counterexample: with a 3-byte local file, a probe that reports no
range support (status 200) and a transfer status 500 (outside
{200, 206, 416}), the task does fail, but the pre-existing local file was
already truncated to empty by the create-mode open that happened before
the response, contradicting the claim that the previous content is kept. -/
theorem c3_counterexample :
    c3srv.main.status = 500 ∧
    (download (some [1, 2, 3]) c3srv ['u'] [['d']]).2.isOk = false ∧
    (download (some [1, 2, 3]) c3srv ['u'] [['d']]).1.fs = some [] := by
  decide

/-- C3 amended: a transfer status outside {200, 206, 416} terminates the
task with an error, no further request is issued and the destination file
is never deleted; the previous content is intact exactly when the file had
been opened in append mode (local size positive and range supported),
while in the other cases it was already truncated to empty by the
create-mode open performed before the response was read. -/
theorem c3_unexpected_status (fs0 : Fs) (server : Server) (url : List Char)
    (dir : List (List Char)) (rs : Option Nat) (sr : Bool)
    (hmeta : fetch_remote_file_metadata server.probe = .ok (rs, sr))
    (hnc : is_download_complete (check_existing_file fs0).1
      (check_existing_file fs0).2 rs = false)
    (h200 : server.main.status ≠ 200) (h206 : server.main.status ≠ 206)
    (h416 : server.main.status ≠ 416) :
    (download fs0 server url dir).2 = .error "Unexpected response status" ∧
    (download fs0 server url dir).1.reqs.length = 1 ∧
    (download fs0 server url dir).1.fs ≠ none ∧
    ((check_existing_file fs0).1 = true ∧ 0 < (check_existing_file fs0).2 ∧
        sr = true →
      (download fs0 server url dir).1.fs = fs0) ∧
    (¬((check_existing_file fs0).1 = true ∧ 0 < (check_existing_file fs0).2 ∧
        sr = true) →
      (download fs0 server url dir).1.fs = some []) := by
  by_cases hc : (check_existing_file fs0).1 = true ∧
      0 < (check_existing_file fs0).2 ∧ sr = true
  · cases fs0 with
    | none => simp [check_existing_file] at hc
    | some c =>
      have hopen : open_output_file (some c)
          (check_existing_file (some c)).1 (check_existing_file (some c)).2
          sr = .ok (some c, .append) := by
        simp only [open_output_file, if_pos hc]
      have hrun := download_run (some c) server url dir _ _ _ _ _ _
        (prepare_output_path_ok url dir) hmeta hnc hopen
      rw [hrun, handle_other _ _ _ _ _ _ _ h200 h206 h416]
      exact ⟨rfl, rfl, by simp, fun _ => rfl, fun h => absurd hc h⟩
  · have hopen := open_output_file_create fs0 (check_existing_file fs0).1
      (check_existing_file fs0).2 sr hc
    have hrun := download_run fs0 server url dir _ _ _ _ _ _
      (prepare_output_path_ok url dir) hmeta hnc hopen
    rw [hrun, handle_other _ _ _ _ _ _ _ h200 h206 h416]
    exact ⟨rfl, rfl, by simp, fun h => absurd h hc, fun _ => rfl⟩

theorem c3_unexpected_status_witness :
    (download (some [1, 2, 3]) c3srv ['w'] [['d']]).2 =
      .error "Unexpected response status" ∧
    (download (some [1, 2, 3]) c3srv ['w'] [['d']]).1.reqs.length = 1 ∧
    (download (some [1, 2, 3]) c3srv ['w'] [['d']]).1.fs ≠ none ∧
    ((check_existing_file (some [1, 2, 3])).1 = true ∧
        0 < (check_existing_file (some [1, 2, 3])).2 ∧ false = true →
      (download (some [1, 2, 3]) c3srv ['w'] [['d']]).1.fs = some [1, 2, 3]) ∧
    (¬((check_existing_file (some [1, 2, 3])).1 = true ∧
        0 < (check_existing_file (some [1, 2, 3])).2 ∧ false = true) →
      (download (some [1, 2, 3]) c3srv ['w'] [['d']]).1.fs = some []) :=
  c3_unexpected_status (some [1, 2, 3]) c3srv ['w'] [['d']] none false
    rfl (by decide) (by decide) (by decide) (by decide)

theorem download_transfer_inv (fs0 : Fs) (server : Server) (url : List Char)
    (dir : List (List Char)) (q : Request)
    (hq : (download fs0 server url dir).1.reqs.head? = some q) :
    ∃ rs fs1 m,
      fetch_remote_file_metadata server.probe =
        .ok (rs, server.probe.status == 206) ∧
      q = build_download_request (check_existing_file fs0).1
        (check_existing_file fs0).2 (server.probe.status == 206) ∧
      open_output_file fs0 (check_existing_file fs0).1
        (check_existing_file fs0).2 (server.probe.status == 206) =
        .ok (fs1, m) ∧
      (download fs0 server url dir).1.opened = some m := by
  cases hm : fetch_remote_file_metadata server.probe with
  | error e =>
    rw [show download fs0 server url dir = (St.init fs0, .error e) by
      simp [download, prepare_output_path_ok url dir, hm]] at hq
    simp [St.init] at hq
  | ok pr =>
    obtain ⟨rs, sr⟩ := pr
    have hsr := fetch_metadata_sr server.probe rs sr hm
    subst hsr
    by_cases hcomp : is_download_complete (check_existing_file fs0).1
        (check_existing_file fs0).2 rs = true
    · rw [show download fs0 server url dir =
          (St.init fs0, .ok (path_join dir
            ((splitOnChar '/' url).getLast (splitOnChar_ne_nil '/' url)))) by
        simp [download, prepare_output_path_ok url dir, hm, hcomp]] at hq
      simp [St.init] at hq
    · obtain ⟨fs1, m, hopen⟩ :=
        open_output_file_total fs0 (server.probe.status == 206)
      have hrun := download_run fs0 server url dir _ _ _ _ _ _
        (prepare_output_path_ok url dir) hm (by simpa using hcomp) hopen
      obtain ⟨t, hreqs, hopened⟩ := handle_st_frame
        { fs := fs1,
          reqs := [build_download_request (check_existing_file fs0).1
            (check_existing_file fs0).2 (server.probe.status == 206)],
          written := none, opened := some m }
        server server.main (fs1.getD [])
        (path_join dir ((splitOnChar '/' url).getLast (splitOnChar_ne_nil '/' url)))
        rs (check_existing_file fs0).2
      rw [hrun] at hq
      rw [hreqs] at hq
      simp at hq
      exact ⟨rs, fs1, m, rfl, hq.symm, hopen, by rw [hrun]; exact hopened⟩

/-- C5: the transfer request carries a range header, and the destination
file is opened in append mode, exactly when the local file exists with
positive size and the probe reported range support; in every other case no
range header is sent and the file is opened in create (truncate) mode. -/
theorem c5_range_iff_resume (fs0 : Fs) (server : Server) (url : List Char)
    (dir : List (List Char)) (q : Request)
    (hq : (download fs0 server url dir).1.reqs.head? = some q) :
    (q.range.isSome = true ↔
      ((check_existing_file fs0).1 = true ∧ 0 < (check_existing_file fs0).2 ∧
        server.probe.status = 206)) ∧
    ((download fs0 server url dir).1.opened = some FileMode.append ↔
      ((check_existing_file fs0).1 = true ∧ 0 < (check_existing_file fs0).2 ∧
        server.probe.status = 206)) ∧
    ((download fs0 server url dir).1.opened = some FileMode.append ∨
      (download fs0 server url dir).1.opened = some FileMode.create) := by
  obtain ⟨rs, fs1, m, hm, hqb, hopen, hopened⟩ :=
    download_transfer_inv fs0 server url dir q hq
  by_cases hc : (check_existing_file fs0).1 = true ∧
      0 < (check_existing_file fs0).2 ∧ (server.probe.status == 206) = true
  · have hb : q.range = some (check_existing_file fs0).2 := by
      rw [hqb]; simp [build_download_request, hc]
    have hm2 : m = .append := by
      cases fs0 with
      | none => simp [check_existing_file] at hc
      | some c =>
        rw [show open_output_file (some c) (check_existing_file (some c)).1
            (check_existing_file (some c)).2 (server.probe.status == 206) =
            .ok (some c, .append) by
          simp only [open_output_file, if_pos hc]] at hopen
        simp at hopen
        exact hopen.2.symm
    refine ⟨?_, ?_, ?_⟩
    · simp only [hb]
      constructor
      · intro _
        exact ⟨hc.1, hc.2.1, by simpa using hc.2.2⟩
      · intro _
        rfl
    · rw [hopened, hm2]
      constructor
      · intro _
        exact ⟨hc.1, hc.2.1, by simpa using hc.2.2⟩
      · intro _
        rfl
    · rw [hopened, hm2]
      exact Or.inl rfl
  · have hb : q.range = none := by
      rw [hqb]
      unfold build_download_request
      rw [if_neg hc]
    have hm2 : m = .create := by
      rw [open_output_file_create _ _ _ _ hc] at hopen
      simp at hopen
      exact hopen.2.symm
    have hc' : ¬((check_existing_file fs0).1 = true ∧
        0 < (check_existing_file fs0).2 ∧ server.probe.status = 206) := by
      intro h
      exact hc ⟨h.1, h.2.1, by simpa using h.2.2⟩
    refine ⟨?_, ?_, ?_⟩
    · simp [hb, hc']
    · rw [hopened, hm2]
      simp [hc']
    · rw [hopened, hm2]
      exact Or.inr rfl

def c5srv : Server :=
  { probe := { status := 206, contentLength := none, contentRange := none,
               chunks := [[0]] },
    main := { status := 206, contentLength := some 1, contentRange := none,
              chunks := [[9]] },
    restart := { status := 0, contentLength := none, contentRange := none,
                 chunks := [] } }

theorem c5_range_iff_resume_witness :
    (({ range := some 1 } : Request).range.isSome = true ↔
      ((check_existing_file (some [1])).1 = true ∧
        0 < (check_existing_file (some [1])).2 ∧ c5srv.probe.status = 206)) ∧
    ((download (some [1]) c5srv ['u'] [['d']]).1.opened =
        some FileMode.append ↔
      ((check_existing_file (some [1])).1 = true ∧
        0 < (check_existing_file (some [1])).2 ∧ c5srv.probe.status = 206)) ∧
    ((download (some [1]) c5srv ['u'] [['d']]).1.opened =
        some FileMode.append ∨
      (download (some [1]) c5srv ['u'] [['d']]).1.opened =
        some FileMode.create) :=
  c5_range_iff_resume (some [1]) c5srv ['u'] [['d']] { range := some 1 }
    (by decide)

theorem handle_restart_bound (st : St) (server : Server) (resp : HttpResponse)
    (fc : FileContent) (p : List (List Char)) (rs : Option Nat) (sz : Nat) :
    (handle_download_response st server resp fc p rs sz).1.reqs.length ≤
      st.reqs.length + 1 ∧
    ((handle_download_response st server resp fc p rs sz).1.reqs.length =
        st.reqs.length + 1 →
      isSuccess server.restart.status = false →
      (handle_download_response st server resp fc p rs sz).2.isOk = false) := by
  unfold handle_download_response restart_download
  split
  · split
    · exact ⟨by simp, fun h _ => absurd h (by simp)⟩
    · exact ⟨by simp, fun h _ => absurd h (by simp)⟩
  · split
    · split
      · exact ⟨by simp, fun _ _ => by simp [Except.isOk, Except.toBool]⟩
      · next hns =>
        split
        · exact ⟨by simp, fun _ hs => absurd hs hns⟩
        · exact ⟨by simp, fun _ hs => absurd hs hns⟩
    · split
      · split
        · split
          · exact ⟨by simp, fun _ _ => by simp [Except.isOk, Except.toBool]⟩
          · next hns =>
            split
            · exact ⟨by simp, fun _ hs => absurd hs hns⟩
            · exact ⟨by simp, fun _ hs => absurd hs hns⟩
        · split
          · exact ⟨by simp, fun h _ => absurd h (by simp)⟩
          · exact ⟨by simp, fun h _ => absurd h (by simp)⟩
      · exact ⟨by simp, fun _ _ => by simp [Except.isOk, Except.toBool]⟩

/-- C6: at most one restart per invocation: no run ever issues more than
two transfer requests, and when a second (restart) request was issued and
its status is not a 2xx success, the run is a hard failure with no further
attempt. -/
theorem c6_at_most_one_restart (fs0 : Fs) (server : Server) (url : List Char)
    (dir : List (List Char)) :
    (download fs0 server url dir).1.reqs.length ≤ 2 ∧
    ((download fs0 server url dir).1.reqs.length = 2 →
      isSuccess server.restart.status = false →
      (download fs0 server url dir).2.isOk = false) := by
  cases hm : fetch_remote_file_metadata server.probe with
  | error e =>
    refine ⟨?_, ?_⟩ <;>
      simp [download, prepare_output_path_ok url dir, hm, St.init]
  | ok pr =>
    obtain ⟨rs, sr⟩ := pr
    by_cases hcomp : is_download_complete (check_existing_file fs0).1
        (check_existing_file fs0).2 rs = true
    · refine ⟨?_, ?_⟩ <;>
        simp [download, prepare_output_path_ok url dir, hm, hcomp, St.init]
    · obtain ⟨fs1, m, hopen⟩ := open_output_file_total fs0 sr
      have hrun := download_run fs0 server url dir _ _ _ _ _ _
        (prepare_output_path_ok url dir) hm (by simpa using hcomp) hopen
      rw [hrun]
      have hb := handle_restart_bound
        { fs := fs1,
          reqs := [build_download_request (check_existing_file fs0).1
            (check_existing_file fs0).2 sr],
          written := none, opened := some m }
        server server.main (fs1.getD [])
        (path_join dir ((splitOnChar '/' url).getLast (splitOnChar_ne_nil '/' url)))
        rs (check_existing_file fs0).2
      simpa using hb

def c6srv : Server :=
  { probe := { status := 200, contentLength := none, contentRange := none,
               chunks := [[0]] },
    main := { status := 416, contentLength := none, contentRange := none,
              chunks := [] },
    restart := { status := 500, contentLength := none, contentRange := none,
                 chunks := [] } }

theorem c6_at_most_one_restart_witness :
    (download (some [1]) c6srv ['u'] [['d']]).2.isOk = false :=
  (c6_at_most_one_restart (some [1]) c6srv ['u'] [['d']]).2
    (by decide) (by decide)

end SnapshotDownloader
